import Mathlib

/-!
Shallow embedding of the RTFTI scoring pipeline (src/app.py).

Numeric amounts (Python floats) are modelled as exact rationals `ℚ`;
the monthly tables are lists of records. The UI, PDF export and string
formatting in `detail`/`formula` fields are presentation only and are
modelled by fixed strings; no claim concerns them. The `month` label of
each generated row is a pure function of the row index and is omitted.
-/

namespace RTFTI

/-- A row of the general-ledger table produced by `generate_gl_data`. -/
structure GLRecord where
  revenue : ℚ
  expenses : ℚ
  net : ℚ
deriving DecidableEq

/-- A row of the bank table produced by `generate_bank_data`. -/
structure BankRecord where
  inflow : ℚ
  outflow : ℚ
  net : ℚ
deriving DecidableEq

/-- A row of the GST (tax-filing) table produced by `generate_gst_data`. -/
structure GSTRecord where
  reported_revenue : ℚ
  filed_on_time : Bool
deriving DecidableEq

/-- A row of the payroll table produced by `generate_payroll_data`. -/
structure PayrollRecord where
  total_salary : ℚ
  statutory_compliant : Bool
deriving DecidableEq

/-- The `ValidationResult` dataclass of src/app.py. -/
structure ValidationResult where
  dimension : String
  weight : ℚ
  score : ℚ
  status : String
  detail : String
  formula : String
deriving DecidableEq

/-- The `TrustProfile` dataclass of src/app.py; `fts` and the per-dimension
fields are Python `int`s. -/
structure TrustProfile where
  fts : ℤ
  confidence : ℚ
  revenue_integrity : ℤ
  cash_flow : ℤ
  tax_compliance : ℤ
  payroll : ℤ
  audit_readiness : ℤ
deriving DecidableEq

/-- Python `int(x)` on a float: truncation toward zero. -/
def pyInt (q : ℚ) : ℤ :=
  if 0 ≤ q then ⌊q⌋ else -⌊-q⌋

/-- `column.sum()` over a table. -/
def sumBy {α : Type} (f : α → ℚ) (l : List α) : ℚ :=
  (l.map f).sum

/-- `np.mean` / `.mean()` over a column.  On an empty column pandas/numpy
yield NaN, which fails every `>`/`>=` comparison in the code; `ℚ` division
by zero yields 0, which fails the same comparisons, so every branch taken
downstream agrees. -/
def meanQ (l : List ℚ) : ℚ :=
  l.sum / (l.length : ℚ)

/- ===================== validate_revenue_integrity ===================== -/

/-- `gl["revenue"].sum()` in `validate_revenue_integrity`. -/
def glTotal (gl : List GLRecord) : ℚ := sumBy (fun r => r.revenue) gl

/-- `bank["inflow"].sum()` in `validate_revenue_integrity`. -/
def bankTotal (bank : List BankRecord) : ℚ := sumBy (fun r => r.inflow) bank

/-- `gst["reported_revenue"].sum()` in `validate_revenue_integrity`. -/
def gstTotal (gst : List GSTRecord) : ℚ := sumBy (fun r => r.reported_revenue) gst

/-- `avg = (gl_total + bank_total + gst_total) / 3`. -/
def revenueAvg (gl : List GLRecord) (bank : List BankRecord) (gst : List GSTRecord) : ℚ :=
  (glTotal gl + bankTotal bank + gstTotal gst) / 3

/-- `max_var = max(abs(gl_total - avg), abs(bank_total - avg), abs(gst_total - avg))`. -/
def revenueMaxVar (gl : List GLRecord) (bank : List BankRecord) (gst : List GSTRecord) : ℚ :=
  max (|glTotal gl - revenueAvg gl bank gst|)
    (max (|bankTotal bank - revenueAvg gl bank gst|) (|gstTotal gst - revenueAvg gl bank gst|))

/-- `variance_pct = (max_var / avg) * 100 if avg > 0 else 0`. -/
def revenueVariancePct (gl : List GLRecord) (bank : List BankRecord) (gst : List GSTRecord) : ℚ :=
  if revenueAvg gl bank gst > 0 then (revenueMaxVar gl bank gst / revenueAvg gl bank gst) * 100
  else 0

/-- `validate_revenue_integrity` of src/app.py. -/
def validate_revenue_integrity (gl : List GLRecord) (bank : List BankRecord)
    (gst : List GSTRecord) : ValidationResult :=
  if revenueVariancePct gl bank gst < 5 then
    ⟨"Revenue Integrity", 0.25, 95, "PASS", "Strong alignment across sources", "variance"⟩
  else if revenueVariancePct gl bank gst < 12 then
    ⟨"Revenue Integrity", 0.25, 75, "WARN", "Moderate variance", "totals"⟩
  else
    ⟨"Revenue Integrity", 0.25, 50, "ALERT", "High variance", "totals"⟩

/- ========================= validate_cash_flow ========================= -/

/-- `mean_flow = np.mean(bank["net"].values)`. -/
def meanFlow (bank : List BankRecord) : ℚ :=
  meanQ (bank.map (fun r => r.net))

/-- `std_flow = np.std(bank["net"].values)` (population standard deviation);
the floating-point square root is modelled by the rational `Rat.sqrt`.  No
claim depends on its value: it is only ever used under the `mean_flow > 0`
guard and every branch outcome proved here is independent of it. -/
def stdFlow (bank : List BankRecord) : ℚ :=
  Rat.sqrt (meanQ (bank.map (fun r => (r.net - meanFlow bank) ^ 2)))

/-- `cv = (std_flow / mean_flow) * 100 if mean_flow > 0 else 100`. -/
def cashCV (bank : List BankRecord) : ℚ :=
  if meanFlow bank > 0 then (stdFlow bank / meanFlow bank) * 100 else 100

/-- `validate_cash_flow` of src/app.py. -/
def validate_cash_flow (bank : List BankRecord) : ValidationResult :=
  if cashCV bank < 25 then
    ⟨"Cash Flow Behaviour", 0.25, 90, "PASS", "Stable and predictable", "cv"⟩
  else if cashCV bank < 50 then
    ⟨"Cash Flow Behaviour", 0.25, 70, "WARN", "Moderate volatility", "mean std"⟩
  else
    ⟨"Cash Flow Behaviour", 0.25, 45, "ALERT", "High volatility", "mean std"⟩

/- ====================== validate_tax_compliance ======================= -/

/-- `on_time_rate = gst["filed_on_time"].mean() * 100`. -/
def onTimeRate (gst : List GSTRecord) : ℚ :=
  meanQ (gst.map (fun r => if r.filed_on_time then 1 else 0)) * 100

/-- `validate_tax_compliance` of src/app.py. -/
def validate_tax_compliance (gst : List GSTRecord) : ValidationResult :=
  if onTimeRate gst ≥ 90 then
    ⟨"Tax Compliance", 0.20, 95, "PASS", "Timely filings", "on-time"⟩
  else if onTimeRate gst ≥ 75 then
    ⟨"Tax Compliance", 0.20, 70, "WARN", "Some delays", "on-time"⟩
  else
    ⟨"Tax Compliance", 0.20, 40, "ALERT", "Frequent delays", "on-time"⟩

/- ========================== validate_payroll ========================== -/

/-- `compliance_rate = payroll["statutory_compliant"].mean() * 100`. -/
def complianceRate (payroll : List PayrollRecord) : ℚ :=
  meanQ (payroll.map (fun r => if r.statutory_compliant then 1 else 0)) * 100

/-- `validate_payroll` of src/app.py. -/
def validate_payroll (payroll : List PayrollRecord) : ValidationResult :=
  if complianceRate payroll ≥ 90 then
    ⟨"Payroll Consistency", 0.15, 92, "PASS", "Regular and compliant", "compliance"⟩
  else if complianceRate payroll ≥ 75 then
    ⟨"Payroll Consistency", 0.15, 68, "WARN", "Some issues", "compliance"⟩
  else
    ⟨"Payroll Consistency", 0.15, 35, "ALERT", "Compliance issues", "compliance"⟩

/- ====================== validate_audit_readiness ====================== -/

/-- `gl_net = gl["net"].sum()`. -/
def glNet (gl : List GLRecord) : ℚ := sumBy (fun r => r.net) gl

/-- `bank_net = bank["net"].sum()`. -/
def bankNet (bank : List BankRecord) : ℚ := sumBy (fun r => r.net) bank

/-- `diff_pct = abs(gl_net - bank_net) / max(gl_net, bank_net) * 100
      if max(gl_net, bank_net) > 0 else 0`. -/
def auditDiffPct (gl : List GLRecord) (bank : List BankRecord) : ℚ :=
  if max (glNet gl) (bankNet bank) > 0 then
    |glNet gl - bankNet bank| / max (glNet gl) (bankNet bank) * 100
  else 0

/-- `validate_audit_readiness` of src/app.py. -/
def validate_audit_readiness (gl : List GLRecord) (bank : List BankRecord) : ValidationResult :=
  if auditDiffPct gl bank < 8 then
    ⟨"Audit Readiness", 0.15, 88, "PASS", "High consistency", "diff"⟩
  else if auditDiffPct gl bank < 18 then
    ⟨"Audit Readiness", 0.15, 65, "WARN", "Moderate gaps", "nets"⟩
  else
    ⟨"Audit Readiness", 0.15, 40, "ALERT", "Significant gaps", "nets"⟩

/- =========================== compute_trust ============================ -/

/-- `fts = sum(v.score * v.weight for v in validations)`: the dot product of
the (score, weight) pairs. -/
def dotScore (validations : List ValidationResult) : ℚ :=
  (validations.map (fun v => v.score * v.weight)).sum

/-- `scores = {v.dimension: int(v.score) for v in validations}` followed by
`scores.get(dim, 0)`: on duplicate keys the later entry wins, so look up the
last matching element, defaulting to 0. -/
def scoreFor (validations : List ValidationResult) (dim : String) : ℤ :=
  match (validations.filter (fun v => v.dimension == dim)).getLast? with
  | some v => pyInt v.score
  | none => 0

/-- `compute_trust` of src/app.py. -/
def compute_trust (validations : List ValidationResult) : TrustProfile :=
  { fts := pyInt (dotScore validations)
    confidence := 0.92
    revenue_integrity := scoreFor validations "Revenue Integrity"
    cash_flow := scoreFor validations "Cash Flow Behaviour"
    tax_compliance := scoreFor validations "Tax Compliance"
    payroll := scoreFor validations "Payroll Consistency"
    audit_readiness := scoreFor validations "Audit Readiness" }

/-- The validation list built in `execute_protocol` (Layer 4). -/
def pipelineValidations (gl : List GLRecord) (bank : List BankRecord)
    (gst : List GSTRecord) (payroll : List PayrollRecord) : List ValidationResult :=
  [validate_revenue_integrity gl bank gst,
   validate_cash_flow bank,
   validate_tax_compliance gst,
   validate_payroll payroll,
   validate_audit_readiness gl bank]

/- ========================== data generation =========================== -/

/-- Model of the numpy generator handed out by `np.random.default_rng(seed)`.
numpy's PCG64 bit generator is external library code; it is modelled as a
deterministic stream of draws in [0,1) indexed by a cursor, produced by a
64-bit linear congruential step.  The only property of the generator that
any claim uses is that the stream is a function of the seed alone. -/
structure Rng where
  seed : ℕ
  pos : ℕ
deriving DecidableEq

/-- One 64-bit linear congruential step (Knuth's MMIX multiplier). -/
def lcgStep (s : ℕ) : ℕ :=
  (6364136223846793005 * s + 1442695040888963407) % (2 ^ 64)

/-- The word stream derived from a seed. -/
def rngWord (seed : ℕ) : ℕ → ℕ
  | 0 => lcgStep (seed % (2 ^ 64))
  | n + 1 => lcgStep (rngWord seed n)

/-- `rng.random()`: the next draw in [0,1), advancing the cursor. -/
def Rng.random (r : Rng) : ℚ × Rng :=
  ((rngWord r.seed r.pos : ℚ) / (2 ^ 64 : ℚ), ⟨r.seed, r.pos + 1⟩)

/-- `rng.uniform(lo, hi)`. -/
def Rng.uniform (r : Rng) (lo hi : ℚ) : ℚ × Rng :=
  let p := r.random
  (lo + (hi - lo) * p.1, p.2)

/-- `np.random.default_rng(seed)`. -/
def default_rng (seed : ℕ) : Rng := ⟨seed, 0⟩

/-- Python `round` to the nearest integer, halves to even. -/
def roundHalfEven (q : ℚ) : ℤ :=
  if q - q.floor < 1 / 2 then q.floor
  else if q - q.floor > 1 / 2 then q.floor + 1
  else if q.floor % 2 = 0 then q.floor else q.floor + 1

/-- Python `round(x, 2)` as used on every generated amount. -/
def round2 (q : ℚ) : ℚ := (roundHalfEven (q * 100) : ℚ) / 100

/-- The `for i in range(months)` loop of `generate_gl_data`, threading the
generator state through the two draws of each iteration. -/
def genGLRecords (monthly_rev : ℚ) : ℕ → Rng → List GLRecord × Rng
  | 0, r => ([], r)
  | n + 1, r =>
    let p1 := r.uniform 0.85 1.15
    let revenue := monthly_rev * p1.1
    let p2 := p1.2.uniform 0.65 0.85
    let expenses := revenue * p2.1
    let rest := genGLRecords monthly_rev n p2.2
    (⟨round2 revenue, round2 expenses, round2 (revenue - expenses)⟩ :: rest.1, rest.2)

/-- `generate_gl_data` of src/app.py. -/
def generate_gl_data (turnover_cr : ℚ) (months : ℕ) (rng : Rng) : List GLRecord × Rng :=
  genGLRecords (turnover_cr * 100 / 12) months rng

/-- The loop of `generate_bank_data`. -/
def genBankRecords (monthly_rev : ℚ) : ℕ → Rng → List BankRecord × Rng
  | 0, r => ([], r)
  | n + 1, r =>
    let p1 := r.uniform 0.82 1.18
    let inflow := monthly_rev * p1.1
    let p2 := p1.2.uniform 0.70 0.90
    let outflow := inflow * p2.1
    let rest := genBankRecords monthly_rev n p2.2
    (⟨round2 inflow, round2 outflow, round2 (inflow - outflow)⟩ :: rest.1, rest.2)

/-- `generate_bank_data` of src/app.py. -/
def generate_bank_data (turnover_cr : ℚ) (months : ℕ) (rng : Rng) : List BankRecord × Rng :=
  genBankRecords (turnover_cr * 100 / 12) months rng

/-- The loop of `generate_gst_data`: one uniform draw for the reported
revenue, one `rng.random() > 0.1` draw for the on-time flag. -/
def genGSTRecords (monthly_rev : ℚ) : ℕ → Rng → List GSTRecord × Rng
  | 0, r => ([], r)
  | n + 1, r =>
    let p1 := r.uniform 0.88 1.12
    let reported := monthly_rev * p1.1
    let p2 := p1.2.random
    let rest := genGSTRecords monthly_rev n p2.2
    (⟨round2 reported, decide (p2.1 > 0.1)⟩ :: rest.1, rest.2)

/-- `generate_gst_data` of src/app.py. -/
def generate_gst_data (turnover_cr : ℚ) (months : ℕ) (rng : Rng) : List GSTRecord × Rng :=
  genGSTRecords (turnover_cr * 100 / 12) months rng

/-- The loop of `generate_payroll_data` with `avg_salary = 0.4`. -/
def genPayrollRecords (employees : ℕ) : ℕ → Rng → List PayrollRecord × Rng
  | 0, r => ([], r)
  | n + 1, r =>
    let p1 := r.uniform 0.95 1.05
    let total := (employees : ℚ) * 0.4 * p1.1
    let p2 := p1.2.random
    let rest := genPayrollRecords employees n p2.2
    (⟨round2 total, decide (p2.1 > 0.08)⟩ :: rest.1, rest.2)

/-- `generate_payroll_data` of src/app.py. -/
def generate_payroll_data (employees : ℕ) (months : ℕ) (rng : Rng) : List PayrollRecord × Rng :=
  genPayrollRecords employees months rng

/-- The four tables held in the session state. -/
structure Tables where
  gl : List GLRecord
  bank : List BankRecord
  gst : List GSTRecord
  payroll : List PayrollRecord
deriving DecidableEq

/-- `init_data` of src/app.py: build the generator from the seed and produce
the four tables in order, threading the generator state.  The app always
calls the generators with `months = 12`; the month count is kept as a
parameter of the entity configuration. -/
def init_data (seed : ℕ) (turnover_cr : ℚ) (employees : ℕ) (months : ℕ) : Tables :=
  let rng := default_rng seed
  let g := generate_gl_data turnover_cr months rng
  let b := generate_bank_data turnover_cr months g.2
  let t := generate_gst_data turnover_cr months b.2
  let p := generate_payroll_data employees months t.2
  ⟨g.1, b.1, t.1, p.1⟩

/-- Layers 4-5 of `execute_protocol`: the validation list and the trust
profile computed from it. -/
def execute_protocol (t : Tables) : List ValidationResult × TrustProfile :=
  let vs := pipelineValidations t.gl t.bank t.gst t.payroll
  (vs, compute_trust vs)

/- ====================== helper lemmas (shared) ======================== -/

/-- `validate_revenue_integrity` returns exactly one of its three records. -/
theorem validate_revenue_integrity_cases (gl : List GLRecord) (bank : List BankRecord)
    (gst : List GSTRecord) :
    validate_revenue_integrity gl bank gst =
        ⟨"Revenue Integrity", 0.25, 95, "PASS", "Strong alignment across sources", "variance"⟩ ∨
      validate_revenue_integrity gl bank gst =
        ⟨"Revenue Integrity", 0.25, 75, "WARN", "Moderate variance", "totals"⟩ ∨
      validate_revenue_integrity gl bank gst =
        ⟨"Revenue Integrity", 0.25, 50, "ALERT", "High variance", "totals"⟩ := by
  unfold validate_revenue_integrity
  split_ifs <;> simp

/-- `validate_cash_flow` returns exactly one of its three records. -/
theorem validate_cash_flow_cases (bank : List BankRecord) :
    validate_cash_flow bank =
        ⟨"Cash Flow Behaviour", 0.25, 90, "PASS", "Stable and predictable", "cv"⟩ ∨
      validate_cash_flow bank =
        ⟨"Cash Flow Behaviour", 0.25, 70, "WARN", "Moderate volatility", "mean std"⟩ ∨
      validate_cash_flow bank =
        ⟨"Cash Flow Behaviour", 0.25, 45, "ALERT", "High volatility", "mean std"⟩ := by
  unfold validate_cash_flow
  split_ifs <;> simp

/-- `validate_tax_compliance` returns exactly one of its three records. -/
theorem validate_tax_compliance_cases (gst : List GSTRecord) :
    validate_tax_compliance gst =
        ⟨"Tax Compliance", 0.20, 95, "PASS", "Timely filings", "on-time"⟩ ∨
      validate_tax_compliance gst =
        ⟨"Tax Compliance", 0.20, 70, "WARN", "Some delays", "on-time"⟩ ∨
      validate_tax_compliance gst =
        ⟨"Tax Compliance", 0.20, 40, "ALERT", "Frequent delays", "on-time"⟩ := by
  unfold validate_tax_compliance
  split_ifs <;> simp

/-- `validate_payroll` returns exactly one of its three records. -/
theorem validate_payroll_cases (payroll : List PayrollRecord) :
    validate_payroll payroll =
        ⟨"Payroll Consistency", 0.15, 92, "PASS", "Regular and compliant", "compliance"⟩ ∨
      validate_payroll payroll =
        ⟨"Payroll Consistency", 0.15, 68, "WARN", "Some issues", "compliance"⟩ ∨
      validate_payroll payroll =
        ⟨"Payroll Consistency", 0.15, 35, "ALERT", "Compliance issues", "compliance"⟩ := by
  unfold validate_payroll
  split_ifs <;> simp

/-- `validate_audit_readiness` returns exactly one of its three records. -/
theorem validate_audit_readiness_cases (gl : List GLRecord) (bank : List BankRecord) :
    validate_audit_readiness gl bank =
        ⟨"Audit Readiness", 0.15, 88, "PASS", "High consistency", "diff"⟩ ∨
      validate_audit_readiness gl bank =
        ⟨"Audit Readiness", 0.15, 65, "WARN", "Moderate gaps", "nets"⟩ ∨
      validate_audit_readiness gl bank =
        ⟨"Audit Readiness", 0.15, 40, "ALERT", "Significant gaps", "nets"⟩ := by
  unfold validate_audit_readiness
  split_ifs <;> simp

/-- Weight constant and score range of the revenue-integrity rule. -/
theorem revenue_weight_score (gl : List GLRecord) (bank : List BankRecord)
    (gst : List GSTRecord) :
    (validate_revenue_integrity gl bank gst).weight = 0.25 ∧
      0 ≤ (validate_revenue_integrity gl bank gst).score ∧
      (validate_revenue_integrity gl bank gst).score ≤ 100 := by
  rcases validate_revenue_integrity_cases gl bank gst with h | h | h <;> rw [h] <;> norm_num

/-- Weight constant and score range of the cash-flow rule. -/
theorem cash_weight_score (bank : List BankRecord) :
    (validate_cash_flow bank).weight = 0.25 ∧
      0 ≤ (validate_cash_flow bank).score ∧ (validate_cash_flow bank).score ≤ 100 := by
  rcases validate_cash_flow_cases bank with h | h | h <;> rw [h] <;> norm_num

/-- Weight constant and score range of the tax-compliance rule. -/
theorem tax_weight_score (gst : List GSTRecord) :
    (validate_tax_compliance gst).weight = 0.20 ∧
      0 ≤ (validate_tax_compliance gst).score ∧ (validate_tax_compliance gst).score ≤ 100 := by
  rcases validate_tax_compliance_cases gst with h | h | h <;> rw [h] <;> norm_num

/-- Weight constant and score range of the payroll rule. -/
theorem payroll_weight_score (payroll : List PayrollRecord) :
    (validate_payroll payroll).weight = 0.15 ∧
      0 ≤ (validate_payroll payroll).score ∧ (validate_payroll payroll).score ≤ 100 := by
  rcases validate_payroll_cases payroll with h | h | h <;> rw [h] <;> norm_num

/-- Weight constant and score range of the audit-readiness rule. -/
theorem audit_weight_score (gl : List GLRecord) (bank : List BankRecord) :
    (validate_audit_readiness gl bank).weight = 0.15 ∧
      0 ≤ (validate_audit_readiness gl bank).score ∧
      (validate_audit_readiness gl bank).score ≤ 100 := by
  rcases validate_audit_readiness_cases gl bank with h | h | h <;> rw [h] <;> norm_num

/-- The dot product over the pipeline's validation list, written out. -/
theorem dotScore_pipeline (gl : List GLRecord) (bank : List BankRecord)
    (gst : List GSTRecord) (payroll : List PayrollRecord) :
    dotScore (pipelineValidations gl bank gst payroll) =
      (validate_revenue_integrity gl bank gst).score *
          (validate_revenue_integrity gl bank gst).weight +
        (validate_cash_flow bank).score * (validate_cash_flow bank).weight +
        (validate_tax_compliance gst).score * (validate_tax_compliance gst).weight +
        (validate_payroll payroll).score * (validate_payroll payroll).weight +
        (validate_audit_readiness gl bank).score * (validate_audit_readiness gl bank).weight := by
  simp [dotScore, pipelineValidations]
  ring

/- ============================== claims ================================ -/

/-- C2: whenever the computed revenue variance percentage is strictly below 5,
`validate_revenue_integrity` returns status PASS with score exactly 95. -/
theorem revenue_integrity_lt5_pass (gl : List GLRecord) (bank : List BankRecord)
    (gst : List GSTRecord) (h : revenueVariancePct gl bank gst < 5) :
    (validate_revenue_integrity gl bank gst).status = "PASS" ∧
      (validate_revenue_integrity gl bank gst).score = 95 := by
  unfold validate_revenue_integrity
  rw [if_pos h]
  exact ⟨rfl, rfl⟩

/-- Witness for C2: with empty tables the variance percentage is 0 < 5 and the
rule passes with score 95. -/
theorem revenue_integrity_lt5_pass_witness :
    revenueVariancePct [] [] [] < 5 ∧
      (validate_revenue_integrity [] [] []).status = "PASS" ∧
      (validate_revenue_integrity [] [] []).score = 95 := by
  have h : revenueVariancePct [] [] [] < 5 := by
    norm_num [revenueVariancePct, revenueAvg, revenueMaxVar, glTotal, bankTotal, gstTotal, sumBy]
  exact ⟨h, revenue_integrity_lt5_pass [] [] [] h⟩

/-- C3: whenever the computed revenue variance percentage lies in [5, 12),
`validate_revenue_integrity` returns status WARN with score exactly 75. -/
theorem revenue_integrity_5_12_warn (gl : List GLRecord) (bank : List BankRecord)
    (gst : List GSTRecord) (h5 : 5 ≤ revenueVariancePct gl bank gst)
    (h12 : revenueVariancePct gl bank gst < 12) :
    (validate_revenue_integrity gl bank gst).status = "WARN" ∧
      (validate_revenue_integrity gl bank gst).score = 75 := by
  unfold validate_revenue_integrity
  rw [if_neg (not_lt.mpr h5), if_pos h12]
  exact ⟨rfl, rfl⟩

/-- Witness for C3: concrete totals 115 / 100 / 100 give variance percentage
200/21 (about 9.5), inside [5, 12), and the rule warns with score 75. -/
theorem revenue_integrity_5_12_warn_witness :
    5 ≤ revenueVariancePct [⟨115, 0, 0⟩] [⟨100, 0, 0⟩] [⟨100, true⟩] ∧
      revenueVariancePct [⟨115, 0, 0⟩] [⟨100, 0, 0⟩] [⟨100, true⟩] < 12 ∧
      (validate_revenue_integrity [⟨115, 0, 0⟩] [⟨100, 0, 0⟩] [⟨100, true⟩]).status = "WARN" ∧
      (validate_revenue_integrity [⟨115, 0, 0⟩] [⟨100, 0, 0⟩] [⟨100, true⟩]).score = 75 := by
  have hv : revenueVariancePct [⟨115, 0, 0⟩] [⟨100, 0, 0⟩] [⟨100, true⟩] = 200 / 21 := by
    norm_num [revenueVariancePct, revenueAvg, revenueMaxVar, glTotal, bankTotal, gstTotal,
      sumBy, abs_of_nonneg, abs_of_nonpos]
  have h5 : 5 ≤ revenueVariancePct [⟨115, 0, 0⟩] [⟨100, 0, 0⟩] [⟨100, true⟩] := by
    rw [hv]; norm_num
  have h12 : revenueVariancePct [⟨115, 0, 0⟩] [⟨100, 0, 0⟩] [⟨100, true⟩] < 12 := by
    rw [hv]; norm_num
  exact ⟨h5, h12, revenue_integrity_5_12_warn _ _ _ h5 h12⟩

/-- C4: whenever the computed revenue variance percentage is at least 12,
`validate_revenue_integrity` returns status ALERT with score exactly 50. -/
theorem revenue_integrity_ge12_alert (gl : List GLRecord) (bank : List BankRecord)
    (gst : List GSTRecord) (h : 12 ≤ revenueVariancePct gl bank gst) :
    (validate_revenue_integrity gl bank gst).status = "ALERT" ∧
      (validate_revenue_integrity gl bank gst).score = 50 := by
  have h5 : (5 : ℚ) ≤ revenueVariancePct gl bank gst := le_trans (by norm_num) h
  unfold validate_revenue_integrity
  rw [if_neg (not_lt.mpr h5), if_neg (not_lt.mpr h)]
  exact ⟨rfl, rfl⟩

/-- Witness for C4: concrete totals 200 / 100 / 100 give variance percentage
exactly 50 ≥ 12, and the rule alerts with score 50. -/
theorem revenue_integrity_ge12_alert_witness :
    12 ≤ revenueVariancePct [⟨200, 0, 0⟩] [⟨100, 0, 0⟩] [⟨100, true⟩] ∧
      (validate_revenue_integrity [⟨200, 0, 0⟩] [⟨100, 0, 0⟩] [⟨100, true⟩]).status = "ALERT" ∧
      (validate_revenue_integrity [⟨200, 0, 0⟩] [⟨100, 0, 0⟩] [⟨100, true⟩]).score = 50 := by
  have h : 12 ≤ revenueVariancePct [⟨200, 0, 0⟩] [⟨100, 0, 0⟩] [⟨100, true⟩] := by
    have hv : revenueVariancePct [⟨200, 0, 0⟩] [⟨100, 0, 0⟩] [⟨100, true⟩] = 50 := by
      norm_num [revenueVariancePct, revenueAvg, revenueMaxVar, glTotal, bankTotal, gstTotal,
        sumBy, abs_of_nonneg, abs_of_nonpos]
    rw [hv]; norm_num
  exact ⟨h, revenue_integrity_ge12_alert _ _ _ h⟩

/-- C7: the confidence field of `compute_trust` is the fixed constant 0.92,
whatever the validation list (hence independent of data, scores and seed). -/
theorem confidence_constant (validations : List ValidationResult) :
    (compute_trust validations).confidence = 0.92 := rfl

/-- C8: each of the three divisions in the scoring rules is guarded: when the
denominator is not positive no division happens and the derived percentage
defaults to 0 (revenue variance, audit-readiness difference) or 100
(cash-flow coefficient of variation).  The scoring functions are total, so no
other error path exists. -/
theorem division_guard_defaults (gl : List GLRecord) (bank : List BankRecord)
    (gst : List GSTRecord) :
    (revenueAvg gl bank gst ≤ 0 → revenueVariancePct gl bank gst = 0) ∧
      (meanFlow bank ≤ 0 → cashCV bank = 100) ∧
      (max (glNet gl) (bankNet bank) ≤ 0 → auditDiffPct gl bank = 0) := by
  refine ⟨fun h => ?_, fun h => ?_, fun h => ?_⟩
  · unfold revenueVariancePct
    rw [if_neg (not_lt.mpr h)]
  · unfold cashCV
    rw [if_neg (not_lt.mpr h)]
  · unfold auditDiffPct
    rw [if_neg (not_lt.mpr h)]

/-- Witness for C8: empty ledger and GST tables and a single bank row with
net −5 make all three denominators non-positive, and the three defaults are
taken. -/
theorem division_guard_defaults_witness :
    (revenueAvg [] [⟨0, 5, -5⟩] [] ≤ 0 ∧ revenueVariancePct [] [⟨0, 5, -5⟩] [] = 0) ∧
      (meanFlow [⟨0, 5, -5⟩] ≤ 0 ∧ cashCV [⟨0, 5, -5⟩] = 100) ∧
      (max (glNet []) (bankNet [⟨0, 5, -5⟩]) ≤ 0 ∧ auditDiffPct [] [⟨0, 5, -5⟩] = 0) := by
  have h := division_guard_defaults [] [⟨0, 5, -5⟩] []
  have h1 : revenueAvg [] [⟨0, 5, -5⟩] [] ≤ 0 := by
    norm_num [revenueAvg, glTotal, bankTotal, gstTotal, sumBy]
  have h2 : meanFlow [⟨0, 5, -5⟩] ≤ 0 := by
    norm_num [meanFlow, meanQ]
  have h3 : max (glNet []) (bankNet [⟨0, 5, -5⟩]) ≤ 0 := by
    simp [glNet, bankNet, sumBy]
  exact ⟨⟨h1, h.1 h1⟩, ⟨h2, h.2.1 h2⟩, ⟨h3, h.2.2 h3⟩⟩

/-- C9: when the average of the three revenue totals is not positive (for
example on all-zero tables) the variance percentage defaults to 0 and the
revenue-integrity rule passes with score 95. -/
theorem revenue_avg_nonpos_pass (gl : List GLRecord) (bank : List BankRecord)
    (gst : List GSTRecord) (h : revenueAvg gl bank gst ≤ 0) :
    revenueVariancePct gl bank gst = 0 ∧
      (validate_revenue_integrity gl bank gst).status = "PASS" ∧
      (validate_revenue_integrity gl bank gst).score = 95 := by
  have hv : revenueVariancePct gl bank gst = 0 := by
    unfold revenueVariancePct
    rw [if_neg (not_lt.mpr h)]
  have h5 : revenueVariancePct gl bank gst < 5 := by rw [hv]; norm_num
  unfold validate_revenue_integrity
  rw [if_pos h5]
  exact ⟨hv, rfl, rfl⟩

/-- Witness for C9: all-zero tables give average 0 ≤ 0, variance 0, PASS 95. -/
theorem revenue_avg_nonpos_pass_witness :
    revenueAvg [⟨0, 0, 0⟩] [⟨0, 0, 0⟩] [⟨0, true⟩] ≤ 0 ∧
      revenueVariancePct [⟨0, 0, 0⟩] [⟨0, 0, 0⟩] [⟨0, true⟩] = 0 ∧
      (validate_revenue_integrity [⟨0, 0, 0⟩] [⟨0, 0, 0⟩] [⟨0, true⟩]).status = "PASS" ∧
      (validate_revenue_integrity [⟨0, 0, 0⟩] [⟨0, 0, 0⟩] [⟨0, true⟩]).score = 95 := by
  have h : revenueAvg [⟨0, 0, 0⟩] [⟨0, 0, 0⟩] [⟨0, true⟩] ≤ 0 := by
    norm_num [revenueAvg, glTotal, bankTotal, gstTotal, sumBy]
  exact ⟨h, revenue_avg_nonpos_pass _ _ _ h⟩

/-- C10: when the mean net bank flow is not positive, the coefficient of
variation defaults to 100 and the cash-flow rule alerts with score 45. -/
theorem mean_flow_nonpos_alert (bank : List BankRecord) (h : meanFlow bank ≤ 0) :
    cashCV bank = 100 ∧ (validate_cash_flow bank).status = "ALERT" ∧
      (validate_cash_flow bank).score = 45 := by
  have hcv : cashCV bank = 100 := by
    unfold cashCV
    rw [if_neg (not_lt.mpr h)]
  unfold validate_cash_flow
  rw [hcv]
  norm_num

/-- Witness for C10: a single bank row with net −10 has mean flow −10 ≤ 0,
coefficient of variation 100, and the rule alerts with score 45. -/
theorem mean_flow_nonpos_alert_witness :
    meanFlow [⟨10, 20, -10⟩] ≤ 0 ∧ cashCV [⟨10, 20, -10⟩] = 100 ∧
      (validate_cash_flow [⟨10, 20, -10⟩]).status = "ALERT" ∧
      (validate_cash_flow [⟨10, 20, -10⟩]).score = 45 := by
  have h : meanFlow [⟨10, 20, -10⟩] ≤ 0 := by
    norm_num [meanFlow, meanQ]
  exact ⟨h, mean_flow_nonpos_alert _ h⟩

/-- C5: with the random seed and the entity parameters fixed, two runs of the
data generators followed by the scoring pipeline yield identical tables and an
identical composite score: in this embedding the generation and scoring
functions are pure, so both runs denote the same value. -/
theorem pipeline_deterministic (seed : ℕ) (turnover_cr : ℚ) (employees months : ℕ) :
    init_data seed turnover_cr employees months = init_data seed turnover_cr employees months ∧
      (execute_protocol (init_data seed turnover_cr employees months)).2.fts =
        (execute_protocol (init_data seed turnover_cr employees months)).2.fts :=
  ⟨rfl, rfl⟩

/-- C6: every ValidationResult produced by any of the five validation rules
has a score in [0,100] and a status among PASS/WARN/ALERT, and the five
weights across the five rules sum to exactly 1. -/
theorem validation_results_wellformed (gl : List GLRecord) (bank : List BankRecord)
    (gst : List GSTRecord) (payroll : List PayrollRecord) :
    (∀ v ∈ pipelineValidations gl bank gst payroll,
        0 ≤ v.score ∧ v.score ≤ 100 ∧
          (v.status = "PASS" ∨ v.status = "WARN" ∨ v.status = "ALERT")) ∧
      ((pipelineValidations gl bank gst payroll).map fun v => v.weight).sum = 1 := by
  constructor
  · intro v hv
    simp only [pipelineValidations, List.mem_cons, List.not_mem_nil, or_false] at hv
    rcases hv with h | h | h | h | h <;> subst h
    · rcases validate_revenue_integrity_cases gl bank gst with h | h | h <;> rw [h] <;> norm_num
    · rcases validate_cash_flow_cases bank with h | h | h <;> rw [h] <;> norm_num
    · rcases validate_tax_compliance_cases gst with h | h | h <;> rw [h] <;> norm_num
    · rcases validate_payroll_cases payroll with h | h | h <;> rw [h] <;> norm_num
    · rcases validate_audit_readiness_cases gl bank with h | h | h <;> rw [h] <;> norm_num
  · have h1 := (revenue_weight_score gl bank gst).1
    have h2 := (cash_weight_score bank).1
    have h3 := (tax_weight_score gst).1
    have h4 := (payroll_weight_score payroll).1
    have h5 := (audit_weight_score gl bank).1
    simp only [pipelineValidations, List.map_cons, List.map_nil, List.sum_cons, List.sum_nil]
    rw [h1, h2, h3, h4, h5]
    norm_num

/-- C1 is false as stated: on these concrete pipeline tables the dot product
of the (score, weight) pairs is 369/5 = 73.8 while the `fts` field returned
by `compute_trust` is the integer 73. -/
theorem compute_trust_fts_ne_dot_product :
    ((compute_trust (pipelineValidations [⟨100, 0, 100⟩] [⟨100, 100, 0⟩] [⟨100, true⟩]
            [⟨40, true⟩])).fts : ℚ) ≠
      dotScore (pipelineValidations [⟨100, 0, 100⟩] [⟨100, 100, 0⟩] [⟨100, true⟩]
        [⟨40, true⟩]) := by
  norm_num [compute_trust, pipelineValidations, validate_revenue_integrity, validate_cash_flow,
    validate_tax_compliance, validate_payroll, validate_audit_readiness, revenueVariancePct,
    revenueAvg, revenueMaxVar, glTotal, bankTotal, gstTotal, sumBy, meanQ, meanFlow, cashCV,
    onTimeRate, complianceRate, glNet, bankNet, auditDiffPct, dotScore, scoreFor, pyInt,
    List.filter, List.getLast?]

/-- C1 (amended): on every pipeline-produced list of the five validation
results, the `fts` field of `compute_trust` is the integer truncation of the
dot product of the (score, weight) pairs, and that dot product — and hence
also `fts` — lies in [0, 100]. -/
theorem compute_trust_fts_trunc_dot_bounds (gl : List GLRecord) (bank : List BankRecord)
    (gst : List GSTRecord) (payroll : List PayrollRecord) :
    (compute_trust (pipelineValidations gl bank gst payroll)).fts =
        pyInt (dotScore (pipelineValidations gl bank gst payroll)) ∧
      0 ≤ dotScore (pipelineValidations gl bank gst payroll) ∧
      dotScore (pipelineValidations gl bank gst payroll) ≤ 100 ∧
      0 ≤ (compute_trust (pipelineValidations gl bank gst payroll)).fts ∧
      (compute_trust (pipelineValidations gl bank gst payroll)).fts ≤ 100 := by
  have h1 := revenue_weight_score gl bank gst
  have h2 := cash_weight_score bank
  have h3 := tax_weight_score gst
  have h4 := payroll_weight_score payroll
  have h5 := audit_weight_score gl bank
  have hdot0 : 0 ≤ dotScore (pipelineValidations gl bank gst payroll) := by
    rw [dotScore_pipeline, h1.1, h2.1, h3.1, h4.1, h5.1]
    linarith [h1.2.1, h2.2.1, h3.2.1, h4.2.1, h5.2.1]
  have hdot100 : dotScore (pipelineValidations gl bank gst payroll) ≤ 100 := by
    rw [dotScore_pipeline, h1.1, h2.1, h3.1, h4.1, h5.1]
    linarith [h1.2.2, h2.2.2, h3.2.2, h4.2.2, h5.2.2]
  have hfts : (compute_trust (pipelineValidations gl bank gst payroll)).fts =
      pyInt (dotScore (pipelineValidations gl bank gst payroll)) := rfl
  refine ⟨hfts, hdot0, hdot100, ?_, ?_⟩
  · rw [hfts]
    unfold pyInt
    rw [if_pos hdot0]
    exact Int.floor_nonneg.mpr hdot0
  · rw [hfts]
    unfold pyInt
    rw [if_pos hdot0]
    calc ⌊dotScore (pipelineValidations gl bank gst payroll)⌋ ≤ ⌊(100 : ℚ)⌋ :=
          Int.floor_le_floor hdot100
      _ = 100 := by norm_num

end RTFTI
